import Mathlib

/-!
# Verification of the cinema subtitle translator core

Shallow embedding of the core of the `cinema_subtitle_translator` repository:

* `src/api/deepseek_client.py` — the throttled, retrying HTTP client
  (`DeepSeekClient`): statistics counters, error classification and the
  retry loop of `chat_completion`;
* `src/storage/cache_manager.py` — the three-tier cache (`CacheManager`):
  in-process memory map with per-key expiry, Redis tier, disk tier,
  read-through with backfill, write-through with swallowed secondary
  failures, and per-tier hit/miss/set statistics;
* `src/core/translation_engine.py` — the batch orchestrator
  (`ContextAwareTranslator`): `translate_subtitle`,
  `_parse_translation_response` and the chunked `translate_batch`.

Conventions of the embedding:

* The network and backing stores are nondeterministic environments; each
  operation takes the environment's outcome for that call as an explicit
  argument (e.g. an `AttemptOutcome` per transport attempt, boolean
  failure flags per cache-tier call).
* Python `float` score fields carry literal values that are never used in
  arithmetic relevant to the claims; they are modelled as `Rat`.
* Wall-clock time (`asyncio.get_event_loop().time()`) is passed explicitly
  as a `now : Rat` argument.
* Exceptions are modelled with `Except`; a function that catches all
  exceptions is total in the model.
-/

/-! ## `src/api/deepseek_client.py` -/

/-- `APIError` (deepseek_client.py lines 38-45): the typed error raised by
`_make_request` for non-200 responses, network failures and timeouts. -/
structure APIError where
  status_code : Nat
  message : String
  type : Option String := none
  param : Option String := none
  code : Option String := none
  deriving Repr, DecidableEq

/-- The decoded JSON body of a successful (HTTP 200) response, as consumed by
`chat_completion` (lines 225-232).  `choices` is a list of plain decoded JSON
dicts (`List[Dict[str, Any]]`), kept opaque here as raw text, because no
modelled control flow ever reads inside them (see `try_body_of`).
`usage_total_tokens` is `data["usage"]["total_tokens"]` when the body has a
`usage` key (`none` when the key is absent; line 125-126 adds 0 for a
missing `total_tokens`, folded into the `Option`). -/
structure ResponseData where
  id : String
  object : String
  created : Nat
  model : String
  choices : List String
  usage_total_tokens : Option Nat
  deriving Repr, DecidableEq

/-- `ChatCompletionResponse` (lines 27-35), built field-for-field from the
decoded body by `chat_completion` (lines 225-232). -/
structure ChatCompletionResponse where
  id : String
  object : String
  created : Nat
  model : String
  choices : List String
  usage_total_tokens : Option Nat
  deriving Repr, DecidableEq

/-- Lines 225-232: the dataclass is a field-for-field copy of the body. -/
def toChatCompletionResponse (d : ResponseData) : ChatCompletionResponse :=
  { id := d.id, object := d.object, created := d.created, model := d.model,
    choices := d.choices, usage_total_tokens := d.usage_total_tokens }

/-- The client's cumulative statistics (lines 66-69), reported by
`get_stats` (lines 272-282).  `total_request_time` is a float accumulator
updated at the same program point as `request_count` (lines 118-119) and is
not needed by any claim, so it is not carried here. -/
structure ClientStats where
  request_count : Nat
  total_tokens : Nat
  deriving Repr, DecidableEq

/-- The fresh statistics of a new client (lines 67-69). -/
def ClientStats.init : ClientStats := { request_count := 0, total_tokens := 0 }

/-- The environment's outcome for one transport attempt inside
`_make_request` (lines 102-175).  A `ClientError` or `TimeoutError` can
strike at two distinct points of the `try`: before the response headers
arrive (during connect/send, i.e. at `async with session.request(...)`,
before the statistics update at lines 115-119 runs), or afterwards, during
the body read `await response.json()` at line 122 or 139 — which executes
only after the line-118 counter update.  The `headers_received` flag
records which of the two it was; the handlers at lines 158-175 raise the
same `APIError` either way.  (A malformed JSON payload raising
`json.JSONDecodeError` — a `ValueError` — during a body read would propagate
uncaught past these handlers; that outcome is outside this model and
immaterial to the claims below.) -/
inductive AttemptOutcome where
  /-- HTTP 200 with decoded body `d` (lines 121-136). -/
  | success (d : ResponseData)
  /-- An HTTP response with a non-200 status whose error body decoded
  (lines 138-156): the error fields extracted from the body's `error`
  object. -/
  | httpError (status : Nat) (msg : String) (etype eparam ecode : Option String)
  /-- `aiohttp.ClientError` — connection refused, DNS, reset, server
  disconnect or content-type error during the body read (lines 158-166);
  `headers_received` says whether it struck after the response headers (and
  hence the line-118 counter update). -/
  | networkError (headers_received : Bool) (emsg : String)
  /-- `asyncio.TimeoutError` (lines 168-175); `headers_received` as for
  `networkError`. -/
  | timeout (headers_received : Bool)
  deriving Repr, DecidableEq

/-- `DeepSeekClient._make_request` (lines 91-175) for a single attempt whose
environment outcome is `o`.  Returns the updated statistics and either the
decoded body or the raised `APIError`.  Statistics: `request_count` is
updated at line 118, immediately after the response headers arrive and
*before* the body reads at lines 122/139; the token accumulator (lines
125-126) only after a 200 body decoded.  So the `except aiohttp.ClientError`
and `except asyncio.TimeoutError` handlers (lines 158-175) raise with the
counter already incremented when the failure struck during the body read
(`headers_received = true`), and with it untouched when the failure struck
before the headers (`headers_received = false`). -/
def make_request (stats : ClientStats) (o : AttemptOutcome) :
    ClientStats × Except APIError ResponseData :=
  match o with
  | .success d =>
      ({ request_count := stats.request_count + 1,
         total_tokens := stats.total_tokens + d.usage_total_tokens.getD 0 },
       .ok d)
  | .httpError s m t p c =>
      ({ stats with request_count := stats.request_count + 1 },
       .error { status_code := s, message := m, type := t, param := p, code := c })
  | .networkError h m =>
      (if h then { stats with request_count := stats.request_count + 1 } else stats,
       .error { status_code := 0, message := "Network error: " ++ m })
  | .timeout h =>
      (if h then { stats with request_count := stats.request_count + 1 } else stats,
       .error { status_code := 0, message := "Request timeout" })

/-- The `APIError` an attempt outcome makes `_make_request` raise (`none` on
success); the error component of `make_request`. -/
def attempt_error (o : AttemptOutcome) : Option APIError :=
  match o with
  | .success _ => none
  | .httpError s m t p c =>
      some { status_code := s, message := m, type := t, param := p, code := c }
  | .networkError _ m => some { status_code := 0, message := "Network error: " ++ m }
  | .timeout _ => some { status_code := 0, message := "Request timeout" }

/-- Whether an attempt outcome is an HTTP 200 success. -/
def AttemptOutcome.isSuccess : AttemptOutcome → Bool
  | .success _ => true
  | _ => false

/-- The retry loop of `chat_completion` (lines 218-260).  The Python loop
state is `retry_count` with guard `retry_count < self.config.api.retry_attempts`;
here `remaining = retry_attempts - retry_count` so that the recursion is
structural.  `transport` gives the environment outcome of each successive
attempt (the `attempts` argument counts attempts already made and indexes
`transport`).  Control flow of the loop body (lines 222-254): a success
returns; on `APIError e`, if `e.status_code >= 500 or e.status_code == 429`
the loop increments `retry_count` and, if tries remain
(`retry_count < retry_attempts`), sleeps and continues; in every other case
it falls through to `raise e` (line 254).  The `remaining = 0` base case is
the loop exit at line 256-260, reachable from the initial call only when
`retry_attempts = 0` (the config validates `retry_attempts >= 1`), where
`last_error` is still `None` and the generic error is raised.
Returns (final stats, result, total attempts made). -/
def chat_completion_loop (transport : Nat → AttemptOutcome) :
    Nat → ClientStats → Nat → ClientStats × Except APIError ResponseData × Nat
  | 0, stats, attempts =>
      (stats, .error { status_code := 0, message := "Max retry attempts exceeded" },
       attempts)
  | remaining + 1, stats, attempts =>
      match make_request stats (transport attempts) with
      | (stats1, .ok d) => (stats1, .ok d, attempts + 1)
      | (stats1, .error e) =>
          if 500 ≤ e.status_code ∨ e.status_code = 429 then
            match remaining with
            | 0 => (stats1, .error e, attempts + 1)
            | r + 1 => chat_completion_loop transport (r + 1) stats1 (attempts + 1)
          else
            (stats1, .error e, attempts + 1)

/-- `DeepSeekClient.chat_completion` (lines 177-260).  The payload assembly
(lines 191-216) does not influence the retry control flow and is omitted;
on success the decoded body is copied into a `ChatCompletionResponse`
(lines 225-232). -/
def chat_completion (transport : Nat → AttemptOutcome) (retry_attempts : Nat)
    (stats : ClientStats) :
    ClientStats × Except APIError ChatCompletionResponse × Nat :=
  match chat_completion_loop transport retry_attempts stats 0 with
  | (s, .ok d, a) => (s, .ok (toChatCompletionResponse d), a)
  | (s, .error e, a) => (s, .error e, a)

/-- A sequence of independent `_make_request` attempts (in any order the
caller makes them), threading the client statistics. -/
def run_attempts (stats : ClientStats) : List AttemptOutcome → ClientStats
  | [] => stats
  | o :: rest => run_attempts (make_request stats o).1 rest

/-- Attempts on which the HTTP response headers arrived: exactly the
attempts that execute the counter update at line 118 — every success and
HTTP-status failure, and the network/timeout failures that struck during
the body read after the headers. -/
def AttemptOutcome.receivedResponse : AttemptOutcome → Bool
  | .success _ => true
  | .httpError _ _ _ _ _ => true
  | .networkError h _ => h
  | .timeout h => h

/-! ## `src/storage/cache_manager.py` -/

/-- The `stats` dict of `CacheManager` (cache_manager.py lines 46-56). -/
structure CacheStats where
  memory_hits : Nat
  memory_misses : Nat
  redis_hits : Nat
  redis_misses : Nat
  disk_hits : Nat
  disk_misses : Nat
  memory_sets : Nat
  redis_sets : Nat
  disk_sets : Nat
  deriving Repr, DecidableEq

/-- The zeroed statistics of a fresh `CacheManager` (lines 46-56). -/
def CacheStats.init : CacheStats :=
  { memory_hits := 0, memory_misses := 0, redis_hits := 0, redis_misses := 0,
    disk_hits := 0, disk_misses := 0, memory_sets := 0, redis_sets := 0,
    disk_sets := 0 }

/-- The mutable state of a `CacheManager` over values of type `alpha`.
`memory` and `memory_expiry` are the two dicts `_memory_cache` and
`_memory_cache_ttl` (lines 33-34; the latter maps a key to its absolute
expiry time, line 177).  `redis_available` is `_redis_available` combined
with `_redis_client is not None` (they are set together, lines 61-85).
`redis` models the remote store's contents; the `json.dumps`/`json.loads`
(or `str`) serialization round trip (lines 110-113, 156-160) is abstracted
to the identity — no claim below depends on the value fidelity of a Redis
hit.  `disk` models the `diskcache.Cache`, each entry carrying its absolute
expiry time; `diskcache` treats an expired entry as absent
(`key in self._disk_cache` is false once `expires_at <= now`). -/
structure CacheState (alpha : Type) where
  memory : String → Option alpha
  memory_expiry : String → Option Rat
  redis_available : Bool
  redis : String → Option alpha
  disk : String → Option (alpha × Rat)
  stats : CacheStats

/-- Point update of a string-keyed map. -/
def mapUpdate {beta : Type} (m : String → Option beta) (k : String) (v : Option beta) :
    String → Option beta :=
  fun q => if q = k then v else m q

/-- `CacheManager._is_cache_valid` (lines 180-185): the key has a recorded
expiry and it is strictly in the future. -/
def is_cache_valid (now : Rat) (ttl_dict : String → Option Rat) (key : String) : Bool :=
  match ttl_dict key with
  | none => false
  | some expiry => now < expiry

/-- `CacheManager._set_memory_cache` (lines 174-178): store the value, record
`now + expire` as the key's expiry, bump `memory_sets`. -/
def set_memory_cache {alpha : Type} (st : CacheState alpha) (key : String)
    (value : alpha) (expire : Rat) (now : Rat) : CacheState alpha :=
  { st with
    memory := mapUpdate st.memory key (some value),
    memory_expiry := mapUpdate st.memory_expiry key (some (now + expire)),
    stats := { st.stats with memory_sets := st.stats.memory_sets + 1 } }

namespace CacheManager

/-- Step 3 of `CacheManager.get`: the `redis_misses` bump at line 124
(executed whenever the Redis tier did not return, including when Redis is
unavailable) followed by the disk tier (lines 126-142): an exception
(`dFails`) is swallowed and falls to the `disk_misses` bump; a live disk
entry backfills memory with the default TTL, bumps `disk_hits` and
returns; otherwise `default` (`none`) is returned. -/
def get_disk_phase {alpha : Type} (cfg_ttl : Rat) (now : Rat) (dFails : Bool)
    (s0 : CacheState alpha) (key : String) : CacheState alpha × Option alpha :=
  let s := { s0 with stats := { s0.stats with redis_misses := s0.stats.redis_misses + 1 } }
  if dFails then
    ({ s with stats := { s.stats with disk_misses := s.stats.disk_misses + 1 } }, none)
  else
    match s.disk key with
    | some (v, expiry) =>
        if now < expiry then
          let s := set_memory_cache s key v cfg_ttl now
          ({ s with stats := { s.stats with disk_hits := s.stats.disk_hits + 1 } }, some v)
        else
          ({ s with stats := { s.stats with disk_misses := s.stats.disk_misses + 1 } }, none)
    | none =>
        ({ s with stats := { s.stats with disk_misses := s.stats.disk_misses + 1 } }, none)

/-- Step 2 of `CacheManager.get`, entered after the memory tier missed:
bump `memory_misses`; query Redis when available — an exception from the
Redis call (`rFails`) is logged and swallowed (lines 121-122) and, like an
absent key or an unavailable Redis, falls through to the disk phase; a
Redis hit backfills memory with the configured default TTL, bumps
`redis_hits` and returns (lines 108-120). -/
def get_after_memory {alpha : Type} (cfg_ttl : Rat) (now : Rat)
    (rFails dFails : Bool) (st0 : CacheState alpha) (key : String) :
    CacheState alpha × Option alpha :=
  let st := { st0 with stats := { st0.stats with memory_misses := st0.stats.memory_misses + 1 } }
  if st.redis_available then
    if rFails then get_disk_phase cfg_ttl now dFails st key
    else
      match st.redis key with
      | some v =>
          let st := set_memory_cache st key v cfg_ttl now
          ({ st with stats := { st.stats with redis_hits := st.stats.redis_hits + 1 } }, some v)
      | none => get_disk_phase cfg_ttl now dFails st key
  else get_disk_phase cfg_ttl now dFails st key

/-- `CacheManager.get` (lines 87-142).  Step 1 (memory, lines 90-102): a
present, unexpired entry is a memory hit and is returned at once; a present
but expired entry is purged from both memory dicts and the lookup falls
through; the fall-through continues in `get_after_memory`.  `cfg_ttl` is
`self.config.cache.cache_ttl` (the backfill TTL, lines 116 and 132; the
config validates it as at least 60).  `rFails`/`dFails` say whether the
Redis/disk calls of this invocation raise. -/
def get {alpha : Type} (cfg_ttl : Rat) (now : Rat) (rFails dFails : Bool)
    (st : CacheState alpha) (key : String) : CacheState alpha × Option alpha :=
  match st.memory key with
  | some v =>
      if is_cache_valid now st.memory_expiry key then
        ({ st with stats := { st.stats with memory_hits := st.stats.memory_hits + 1 } }, some v)
      else
        let st := { st with
          memory := mapUpdate st.memory key none,
          memory_expiry := mapUpdate st.memory_expiry key none }
        get_after_memory cfg_ttl now rFails dFails st key
  | none => get_after_memory cfg_ttl now rFails dFails st key

/-- `CacheManager.set` (lines 144-172): resolve the TTL from the argument or
the config default (lines 147-148); write tier 1 through
`_set_memory_cache` (line 151); write Redis when available, an exception
(`rFails`) being logged and swallowed (lines 154-165); write disk with
`expire` (diskcache stores the absolute expiry `now + ttl`), an exception
(`dFails`) being logged and swallowed (lines 167-172). -/
def set {alpha : Type} (cfg_ttl : Rat) (now : Rat) (rFails dFails : Bool)
    (st : CacheState alpha) (key : String) (value : alpha)
    (expire : Option Rat) : CacheState alpha :=
  let ttl := expire.getD cfg_ttl
  let st1 := set_memory_cache st key value ttl now
  let st2 :=
    if st1.redis_available then
      if rFails then st1
      else { st1 with
        redis := mapUpdate st1.redis key (some value),
        stats := { st1.stats with redis_sets := st1.stats.redis_sets + 1 } }
    else st1
  if dFails then st2
  else { st2 with
    disk := mapUpdate st2.disk key (some (value, now + ttl)),
    stats := { st2.stats with disk_sets := st2.stats.disk_sets + 1 } }

end CacheManager

/-- A fresh, empty cache state (constructor lines 29-59) with a given Redis
availability. -/
def CacheState.empty (alpha : Type) (redisAvail : Bool) : CacheState alpha :=
  { memory := fun _ => none, memory_expiry := fun _ => none,
    redis_available := redisAvail, redis := fun _ => none,
    disk := fun _ => none, stats := CacheStats.init }

/-! ## `src/core/translation_engine.py` -/

/-- `SubtitleLine` (translation_engine.py lines 40-51).  Score fields are
Python floats, carried as `Rat` (never used in arithmetic here). -/
structure SubtitleLine where
  index : Nat
  start_time : String
  end_time : String
  text : String
  character : Option String := none
  context : Option String := none
  translation : Option String := none
  quality_score : Rat := 0
  confidence : Rat := 0
  deriving Repr, DecidableEq

/-- `TranslationResult` (lines 68-79). -/
structure TranslationResult where
  original_text : String
  translated_text : String
  confidence : Rat
  quality_score : Rat
  style_score : Rat
  cultural_score : Rat
  character_score : Rat
  suggestions : List String
  alternative_translations : List String
  deriving Repr, DecidableEq

/-- The synthesized fallback result built in the `except` branches of
`translate_subtitle` (lines 155-165), `_parse_translation_response`
(lines 378-388) and `translate_batch` (lines 489-499): original text echoed
as the translation, every score zeroed, empty suggestion lists. -/
def fallback_result (sub : SubtitleLine) : TranslationResult :=
  { original_text := sub.text, translated_text := sub.text,
    confidence := 0, quality_score := 0, style_score := 0,
    cultural_score := 0, character_score := 0,
    suggestions := [], alternative_translations := [] }

/-- An arbitrary Python exception value; the modelled control flow only
branches on whether an exception occurred, never on its contents. -/
structure PyExc where
  msg : String
  deriving Repr, DecidableEq

/-- The fields `json.loads` produced for the JSON block found inside the
model's reply, as read by the `data.get(...)` calls of
`_parse_translation_response` (lines 363-372): `none` models an absent key
(the `data.get` default applies). -/
structure ParsedData where
  translation : Option String
  confidence : Option Rat
  quality_score : Option Rat
  style_score : Option Rat
  cultural_score : Option Rat
  character_score : Option Rat
  suggestions : Option (List String)
  alternative_translations : Option (List String)
  deriving Repr, DecidableEq

/-- Classification of a reply string for `_parse_translation_response`
(lines 345-388), abstracting the regex search and `json.loads` of
lines 356-358. -/
inductive ResponseKind where
  /-- `re.search` found a brace-delimited block and `json.loads` decoded it
  to the dict `d`. -/
  | jsonOk (d : ParsedData)
  /-- `re.search` found a block but `json.loads` raised. -/
  | jsonBad
  /-- No brace-delimited block: line 361 calls `_parse_simple_response`,
  whose first statement (line 395, `translation = subtitle.text`) raises
  `NameError` — `subtitle` is not in scope in that method — so this case
  always lands in the `except` branch of `_parse_translation_response`. -/
  | noJson
  deriving Repr, DecidableEq

/-- `ContextAwareTranslator._parse_translation_response` (lines 345-388):
on a decoded JSON block, build the result from `data.get` with the 0.8
defaults (lines 363-372); any exception — a failed `json.loads`, or the
`NameError` out of `_parse_simple_response` — is caught at line 375 and
yields the zeroed fallback (lines 378-388).  In every branch
`original_text` is `subtitle.text`. -/
def parse_translation_response (rk : ResponseKind) (sub : SubtitleLine) :
    TranslationResult :=
  match rk with
  | .jsonOk d =>
      { original_text := sub.text,
        translated_text := d.translation.getD sub.text,
        confidence := d.confidence.getD 0.8,
        quality_score := d.quality_score.getD 0.8,
        style_score := d.style_score.getD 0.8,
        cultural_score := d.cultural_score.getD 0.8,
        character_score := d.character_score.getD 0.8,
        suggestions := d.suggestions.getD [],
        alternative_translations := d.alternative_translations.getD [] }
  | .jsonBad => fallback_result sub
  | .noJson => fallback_result sub

/-- The outcome of the `try` body of `translate_subtitle` (lines 121-151)
on a cache miss: either some exception was raised inside it — the
`APIError` propagating out of `chat_completion`, the attribute access
`response.choices[0].message` (line 134) on a plain decoded dict, a
`KeyError` while building the dataclass — and the `except Exception`
at line 152 catches it, or the reply text reached
`_parse_translation_response` with classification `rk`. -/
inductive TryBody where
  | raised (e : PyExc)
  | parsed (rk : ResponseKind)
  deriving Repr, DecidableEq

/-- `ContextAwareTranslator.translate_subtitle` (lines 100-165).
`cached` is the result of the cache lookup at line 113 (entries are stored
as `result.__dict__` at line 143 and rebuilt by `TranslationResult(**...)`
at line 116); a hit returns it at once.  On a miss the `try` body runs:
its outcome `body` either raises — caught at line 152, returning the
fallback (lines 155-165) — or produces a reply parsed by
`_parse_translation_response`.  The cache write-back (line 141) and the
statistics updates (lines 115, 148) mutate external state and do not
affect the returned value; they are not carried here. -/
def translate_subtitle (cached : Option TranslationResult) (sub : SubtitleLine)
    (body : TryBody) : TranslationResult :=
  match cached with
  | some r => r
  | none =>
      match body with
      | .raised _ => fallback_result sub
      | .parsed rk => parse_translation_response rk sub

/-- The bridge from a `chat_completion` result to the `try`-body outcome of
`translate_subtitle`: an `APIError` from `chat_completion` is an exception
inside the `try`; on a successful response, line 134 evaluates
`response.choices[0].message.content`, but `choices` is a list of plain
decoded JSON dicts (`List[Dict[str, Any]]`, deepseek_client.py line 34), so
the attribute access raises (`AttributeError`; `IndexError` when `choices`
is empty) — also an exception inside the `try`. -/
def try_body_of (r : Except APIError ChatCompletionResponse) : TryBody :=
  match r with
  | .error e => .raised { msg := e.message }
  | .ok _ => .raised { msg := "AttributeError: dict object has no attribute message" }

/-- One full cache-missing unit run: `translate_subtitle` wired to
`chat_completion` over the given transport environment. -/
def translate_subtitle_run (cached : Option TranslationResult)
    (transport : Nat → AttemptOutcome) (retry_attempts : Nat)
    (stats : ClientStats) (sub : SubtitleLine) : TranslationResult :=
  translate_subtitle cached sub
    (try_body_of (chat_completion transport retry_attempts stats).2.1)

/-- Lines 484-502 of `translate_batch`, for one slot of an
`asyncio.gather(..., return_exceptions=True)` result: an exception value
becomes the synthesized fallback for that slot's subtitle (lines 485-500),
a proper result is appended unchanged (line 502).  `op` is the per-unit
operation (the `translate_subtitle` task of line 478). -/
def handle_result (op : SubtitleLine → Except PyExc TranslationResult)
    (sub : SubtitleLine) : TranslationResult :=
  match op sub with
  | .ok r => r
  | .error _ => fallback_result sub

/-- The chunking loop `for i in range(0, len(subtitles), batch_size)`
(line 472) with `batch = subtitles[i:i + batch_size]` (line 473), made
structural on a fuel argument; `batch_chunks` instantiates the fuel with
the list length, which suffices whenever `0 < bs`.  (With `bs = 0` the
Python `range` raises `ValueError`; the config validates
`batch_size >= 1`.) -/
def batch_chunks_aux {gamma : Type} (bs : Nat) :
    Nat → List gamma → List (List gamma)
  | 0, _ => []
  | _, [] => []
  | fuel + 1, x :: xs =>
      (x :: xs).take bs :: batch_chunks_aux bs fuel ((x :: xs).drop bs)

/-- The chunks `subtitles[0:bs], subtitles[bs:2*bs], ...` of line 472-473. -/
def batch_chunks {gamma : Type} (bs : Nat) (l : List gamma) : List (List gamma) :=
  batch_chunks_aux bs l.length l

/-- `ContextAwareTranslator.translate_batch` (lines 456-504): split the
subtitles into chunks of `batch_size`; within a chunk, gather the per-unit
operations with `return_exceptions=True` and convert each slot through
`handle_result`; concatenate the chunks' results in order into `results`. -/
def translate_batch (subs : List SubtitleLine)
    (op : SubtitleLine → Except PyExc TranslationResult)
    (batch_size : Nat) : List TranslationResult :=
  (batch_chunks batch_size subs).flatMap fun batch => batch.map (handle_result op)

/-! ## Concrete instances used by witnesses and counterexamples -/

/-- The retry condition of line 238: `e.status_code >= 500 or e.status_code == 429`. -/
def retryable_status (e : APIError) : Prop :=
  500 ≤ e.status_code ∨ e.status_code = 429

instance (e : APIError) : Decidable (retryable_status e) := by
  unfold retryable_status; infer_instance

/-- A concrete decoded 200 body. -/
def exampleBody : ResponseData :=
  { id := "id-1", object := "chat.completion", created := 0,
    model := "deepseek-chat", choices := ["choice-dict"], usage_total_tokens := some 7 }

/-- A transport whose first attempt fails at network level and whose later
attempts would all succeed. -/
def networkThenOk : Nat → AttemptOutcome := fun i =>
  if i = 0 then .networkError false "connection refused" else .success exampleBody

/-- A transport whose first attempt is rate-limited (HTTP 429) and whose
later attempts succeed. -/
def rateLimitedThenOk : Nat → AttemptOutcome := fun i =>
  if i = 0 then .httpError 429 "rate limited" none none none else .success exampleBody

/-- A transport that fails every attempt with HTTP 500. -/
def always500 : Nat → AttemptOutcome := fun _ =>
  .httpError 500 "Internal Server Error" none none none

/-- A transport that is completely down (every attempt a network failure). -/
def outageTransport : Nat → AttemptOutcome := fun _ => .networkError false "connection refused"

/-- A concrete subtitle line. -/
def exampleSubtitle (i : Nat) (t : String) : SubtitleLine :=
  { index := i, start_time := "00:00:00,000", end_time := "00:00:01,000", text := t }

/-- The five-unit batch of the spec's batch-isolation example. -/
def exampleSubs : List SubtitleLine :=
  [exampleSubtitle 0 "a", exampleSubtitle 1 "b", exampleSubtitle 2 "c",
   exampleSubtitle 3 "d", exampleSubtitle 4 "e"]

/-- A concrete successful per-unit result. -/
def exampleOk (t : String) : TranslationResult :=
  { original_text := t, translated_text := "T-" ++ t,
    confidence := 0.9, quality_score := 0.9, style_score := 0.9,
    cultural_score := 0.9, character_score := 0.9,
    suggestions := [], alternative_translations := [] }

/-- The per-unit operation of the spec's example: index 2 always fails, the
rest succeed. -/
def exampleOp (s : SubtitleLine) : Except PyExc TranslationResult :=
  if s.index = 2 then .error { msg := "boom" } else .ok (exampleOk s.text)

/-- A cache whose disk tier holds key `"k"` (value 7, expiring at time 100)
while the memory tier is empty and Redis is unavailable. -/
def exampleDiskState : CacheState Nat :=
  { CacheState.empty Nat false with
    disk := mapUpdate (fun _ => none) "k" (some (7, 100)) }

/-! ## Helper lemmas -/

/-- One unfolding of the retry loop at a positive `remaining`. -/
theorem chat_loop_step (t : Nat → AttemptOutcome) (r : Nat) (s : ClientStats) (a : Nat) :
    chat_completion_loop t (r + 1) s a =
      match make_request s (t a) with
      | (s1, .ok d) => (s1, .ok d, a + 1)
      | (s1, .error e) =>
          if 500 ≤ e.status_code ∨ e.status_code = 429 then
            match r with
            | 0 => (s1, .error e, a + 1)
            | q + 1 => chat_completion_loop t (q + 1) s1 (a + 1)
          else (s1, .error e, a + 1) := by
  rw [chat_completion_loop]

/-- Unfolding of the retry loop when at least two tries remain: a retryable
first error recurses. -/
theorem chat_loop_step_two (t : Nat → AttemptOutcome) (m : Nat) (s : ClientStats) (a : Nat) :
    chat_completion_loop t (m + 2) s a =
      match make_request s (t a) with
      | (s1, .ok d) => (s1, .ok d, a + 1)
      | (s1, .error e) =>
          if 500 ≤ e.status_code ∨ e.status_code = 429 then
            chat_completion_loop t (m + 1) s1 (a + 1)
          else (s1, .error e, a + 1) := by
  rw [chat_completion_loop]

/-- The loop makes at least one attempt when tries remain. -/
theorem chat_loop_attempts_ge (t : Nat → AttemptOutcome) :
    ∀ (n : Nat) (s : ClientStats) (a : Nat), n ≠ 0 →
      a + 1 ≤ (chat_completion_loop t n s a).2.2 := by
  intro n
  induction n with
  | zero => intro s a h; exact absurd rfl h
  | succ k ih =>
      intro s a _
      rw [chat_loop_step]
      rcases hmk : make_request s (t a) with ⟨s1, r⟩
      rcases r with e | d
      · simp only
        by_cases hc : 500 ≤ e.status_code ∨ e.status_code = 429
        · simp only [if_pos hc]
          rcases k with _ | q
          · simp
          · exact Nat.le_trans (Nat.le_succ (a + 1)) (ih s1 (a + 1) (Nat.succ_ne_zero q))
        · simp [if_neg hc]
      · simp

/-- Against a transport whose every attempt is an HTTP 500 (with messages
indexed by attempt), the loop consumes all remaining tries and ends with the
error of the last attempt. -/
theorem chat_loop_all_500 (msg : Nat → String) :
    ∀ (n a : Nat) (s : ClientStats),
      (chat_completion_loop (fun i => .httpError 500 (msg i) none none none)
          (n + 1) s a).2 =
        (.error { status_code := 500, message := msg (a + n) }, a + n + 1) := by
  intro n
  induction n with
  | zero =>
      intro a s
      rw [chat_loop_step]
      simp [make_request]
  | succ k ih =>
      intro a s
      rw [chat_loop_step]
      simp only [make_request]
      rw [if_pos (by simp : 500 ≤ 500 ∨ (500 : Nat) = 429)]
      have := ih (a + 1) ({ s with request_count := s.request_count + 1 })
      rw [this]
      have h1 : a + 1 + k = a + (k + 1) := by omega
      rw [h1]

/-- Chunked dispatch is the pointwise map: flattening the per-chunk maps
over the chunks of a positive chunk size recovers the map over the whole
list. -/
theorem batch_chunks_aux_flatMap {gamma delta : Type} (f : gamma → delta) (bs : Nat)
    (hbs : 0 < bs) :
    ∀ (fuel : Nat) (l : List gamma), l.length ≤ fuel →
      (batch_chunks_aux bs fuel l).flatMap (fun c => c.map f) = l.map f := by
  intro fuel
  induction fuel with
  | zero =>
      intro l hl
      have : l = [] := List.eq_nil_of_length_eq_zero (Nat.le_zero.mp hl)
      subst this
      rfl
  | succ k ih =>
      intro l hl
      match l with
      | [] => rfl
      | x :: xs =>
          rw [batch_chunks_aux]
          rw [List.flatMap_cons]
          have hdrop : ((x :: xs).drop bs).length ≤ k := by
            rw [List.length_drop]
            simp only [List.length_cons] at hl ⊢
            omega
          rw [ih _ hdrop, ← List.map_append, List.take_append_drop]

/-- `translate_batch` with a positive batch size equals the per-unit map. -/
theorem translate_batch_eq_map (subs : List SubtitleLine)
    (op : SubtitleLine → Except PyExc TranslationResult) (bs : Nat) (hbs : 0 < bs) :
    translate_batch subs op bs = subs.map (handle_result op) := by
  unfold translate_batch batch_chunks
  exact batch_chunks_aux_flatMap (handle_result op) bs hbs subs.length subs le_rfl

/-- A cache-missing unit whose transport environment is wired through
`chat_completion` always produces the synthesized fallback: the `APIError`
of a failed completion and the line-134 attribute access on a successful
one both raise inside the `try`. -/
theorem translate_subtitle_run_eq_fallback (transport : Nat → AttemptOutcome)
    (retry_attempts : Nat) (stats : ClientStats) (sub : SubtitleLine) :
    translate_subtitle_run none transport retry_attempts stats sub =
      fallback_result sub := by
  unfold translate_subtitle_run translate_subtitle try_body_of
  rcases (chat_completion transport retry_attempts stats).2.1 with e | d <;> rfl

/-- `set` updates the memory tier unconditionally: projections of the state
after a `set`, for every combination of Redis availability and tier-2/3
write failures. -/
theorem set_memory_proj {alpha : Type} (cfg now : Rat) (rF dF : Bool)
    (st : CacheState alpha) (k : String) (v : alpha) (e : Option Rat) :
    (CacheManager.set cfg now rF dF st k v e).memory = mapUpdate st.memory k (some v) ∧
    (CacheManager.set cfg now rF dF st k v e).memory_expiry =
      mapUpdate st.memory_expiry k (some (now + e.getD cfg)) := by
  unfold CacheManager.set set_memory_cache
  cases rF <;> cases dF <;> cases hra : st.redis_available <;> simp [hra]

/-- A valid memory entry is returned at once, bumping only `memory_hits`. -/
theorem get_memory_hit {alpha : Type} (cfg now : Rat) (rF dF : Bool)
    (st : CacheState alpha) (k : String) (v : alpha)
    (hm : st.memory k = some v)
    (hv : is_cache_valid now st.memory_expiry k = true) :
    CacheManager.get cfg now rF dF st k =
      ({ st with stats := { st.stats with memory_hits := st.stats.memory_hits + 1 } },
       some v) := by
  unfold CacheManager.get
  rw [hm]
  simp [hv]

/-- A tier-3 hit with a cold memory tier and a missing (or failing, or
unavailable) Redis tier: the disk value is returned, the memory tier is
backfilled with the default TTL, and the statistics record a memory miss, a
Redis miss, a memory set and a disk hit. -/
theorem get_tier3_hit {alpha : Type} (cfg now de : Rat) (rF : Bool)
    (st : CacheState alpha) (k : String) (v : alpha)
    (hm : st.memory k = none)
    (hred : st.redis_available = true → st.redis k = none)
    (hd : st.disk k = some (v, de)) (hlive : now < de) :
    CacheManager.get cfg now rF false st k =
      ({ st with
          memory := mapUpdate st.memory k (some v),
          memory_expiry := mapUpdate st.memory_expiry k (some (now + cfg)),
          stats := { st.stats with
            memory_misses := st.stats.memory_misses + 1,
            redis_misses := st.stats.redis_misses + 1,
            memory_sets := st.stats.memory_sets + 1,
            disk_hits := st.stats.disk_hits + 1 } }, some v) := by
  unfold CacheManager.get
  rw [hm]
  unfold CacheManager.get_after_memory CacheManager.get_disk_phase set_memory_cache
  cases hra : st.redis_available
  · simp [hra, hd, hlive]
  · have hrk := hred hra
    cases rF <;> simp [hra, hrk, hd, hlive]

/-! ## Claims -/

/-- C1, counterexample: a network-level failure on the first attempt is NOT
retried, contradicting the claim that network failures lead to a retry
while attempts remain.  With `retry_attempts = 3` (the default) and a
transport whose first attempt is a connection failure and whose second
attempt would succeed, `chat_completion` makes exactly one attempt and
propagates the status-0 `APIError` immediately. -/
theorem chat_network_failure_terminal_cex :
    (chat_completion networkThenOk 3 ClientStats.init).2.2 = 1 ∧
    (chat_completion networkThenOk 3 ClientStats.init).2.1 =
      .error { status_code := 0, message := "Network error: connection refused" } ∧
    (networkThenOk 1).isSuccess = true := by
  refine ⟨rfl, rfl, rfl⟩

/-- C1, amended: the retry loop re-attempts a failed request iff the raised
`APIError` satisfies the line-238 test `status_code >= 500 or status_code == 429`
(while attempts remain).  Network-level failures and timeouts are raised with
`status_code = 0` and are therefore terminal — propagated immediately after a
single attempt — exactly like every other non-retryable status (including
all other 4xx). -/
theorem chat_retry_iff_retryable_status (transport : Nat → AttemptOutcome)
    (retry_attempts : Nat) (stats : ClientStats) (h : 2 ≤ retry_attempts) :
    (2 ≤ (chat_completion transport retry_attempts stats).2.2 ↔
      ∃ e, attempt_error (transport 0) = some e ∧ retryable_status e) ∧
    (∀ e, attempt_error (transport 0) = some e → ¬ retryable_status e →
      (chat_completion transport retry_attempts stats).2 = (.error e, 1)) := by
  obtain ⟨m, rfl⟩ : ∃ m, retry_attempts = m + 2 := ⟨retry_attempts - 2, by omega⟩
  unfold chat_completion
  rw [chat_loop_step_two]
  rcases ho : transport 0 with d | ⟨s0, m0, t0, p0, c0⟩ | ⟨h0, msg0⟩ | h0
  · simp [make_request, attempt_error]
  · simp only [make_request]
    by_cases hr : 500 ≤ s0 ∨ s0 = 429
    · rw [if_pos hr]
      rcases hl : chat_completion_loop transport (m + 1)
          { stats with request_count := stats.request_count + 1 } 1 with ⟨s2, r2, a2⟩
      have ha2 : 2 ≤ a2 := by
        have h2 := chat_loop_attempts_ge transport (m + 1)
          { stats with request_count := stats.request_count + 1 } 1 (Nat.succ_ne_zero m)
        rw [hl] at h2
        exact h2
      refine ⟨⟨fun _ => ?_, fun _ => ?_⟩, fun e he hne => ?_⟩
      · exact ⟨⟨s0, m0, t0, p0, c0⟩, rfl, hr⟩
      · rcases r2 with e2 | d2 <;> simpa using ha2
      · have he2 : (⟨s0, m0, t0, p0, c0⟩ : APIError) = e := by
          simpa [attempt_error] using he
        rw [← he2] at hne
        exact absurd hr hne
    · rw [if_neg hr]
      refine ⟨⟨fun hle => ?_, fun hex => ?_⟩, fun e he hne => ?_⟩
      · simp at hle
      · rcases hex with ⟨e, he, hre⟩
        have he2 : (⟨s0, m0, t0, p0, c0⟩ : APIError) = e := by
          simpa [attempt_error] using he
        rw [← he2] at hre
        exact absurd hre hr
      · have he2 : (⟨s0, m0, t0, p0, c0⟩ : APIError) = e := by
          simpa [attempt_error] using he
        rw [← he2]
  · simp only [make_request]
    rw [if_neg (by decide : ¬ (500 ≤ (0:Nat) ∨ (0:Nat) = 429))]
    refine ⟨⟨fun hle => ?_, fun hex => ?_⟩, fun e he hne => ?_⟩
    · simp at hle
    · rcases hex with ⟨e, he, hre⟩
      have he2 : (⟨0, "Network error: " ++ msg0, none, none, none⟩ : APIError) = e := by
        simpa [attempt_error] using he
      rw [← he2] at hre
      simp [retryable_status] at hre
    · have he2 : (⟨0, "Network error: " ++ msg0, none, none, none⟩ : APIError) = e := by
        simpa [attempt_error] using he
      rw [← he2]
  · simp only [make_request]
    rw [if_neg (by decide : ¬ (500 ≤ (0:Nat) ∨ (0:Nat) = 429))]
    refine ⟨⟨fun hle => ?_, fun hex => ?_⟩, fun e he hne => ?_⟩
    · simp at hle
    · rcases hex with ⟨e, he, hre⟩
      have he2 : (⟨0, "Request timeout", none, none, none⟩ : APIError) = e := by
        simpa [attempt_error] using he
      rw [← he2] at hre
      simp [retryable_status] at hre
    · have he2 : (⟨0, "Request timeout", none, none, none⟩ : APIError) = e := by
        simpa [attempt_error] using he
      rw [← he2]

/-- Witness for the amended C1 at a concrete input: a first-attempt HTTP 429
is retried (the transport then succeeds, so two attempts happen). -/
theorem chat_retry_iff_retryable_status_witness :
    2 ≤ 3 ∧
    ((2 ≤ (chat_completion rateLimitedThenOk 3 ClientStats.init).2.2 ↔
      ∃ e, attempt_error (rateLimitedThenOk 0) = some e ∧ retryable_status e) ∧
    (∀ e, attempt_error (rateLimitedThenOk 0) = some e → ¬ retryable_status e →
      (chat_completion rateLimitedThenOk 3 ClientStats.init).2 = (.error e, 1))) :=
  ⟨by decide,
   chat_retry_iff_retryable_status rateLimitedThenOk 3 ClientStats.init (by decide)⟩

/-- C2, counterexample: one transport attempt that fails at network level
before the response headers arrive (M = 0 successes, K = 1 failure) leaves
`request_count` at 0, not M + K = 1: the counter update at line 118 sits
after the `async with session.request(...)` entry, which is where a
connection failure raises, so the `except aiohttp.ClientError` handler runs
without the counter having been touched. -/
theorem request_count_network_failure_cex :
    (AttemptOutcome.networkError false "connection reset").isSuccess = false ∧
    (run_attempts ClientStats.init
      [.networkError false "connection reset"]).request_count = 0 ∧
    (run_attempts ClientStats.init
      [.networkError false "connection reset"]).request_count ≠ 0 + 1 := by
  refine ⟨rfl, rfl, by decide⟩

/-- C2, amended: after any sequence of transport attempts, `request_count`
equals its previous value plus the number of attempts on which the HTTP
response headers arrived — the attempts that execute the line-118 update.
These are every success, every HTTP-status failure, and the network-level
or timeout failures that strike during the body read at line 122/139, after
the headers (such a failed attempt IS counted); only the attempts failing
before the headers (connection refused, DNS, reset or timeout during
connect/send) are not counted. -/
theorem request_count_counts_header_received (l : List AttemptOutcome)
    (stats : ClientStats) :
    (run_attempts stats l).request_count =
      stats.request_count + l.countP (·.receivedResponse) := by
  induction l generalizing stats with
  | nil => simp [run_attempts]
  | cons o rest ih =>
      rw [run_attempts, ih, List.countP_cons]
      rcases o with d | ⟨s, m, t, p, c⟩ | ⟨h, m⟩ | h
      · simp [make_request, AttemptOutcome.receivedResponse]
        omega
      · simp [make_request, AttemptOutcome.receivedResponse]
        omega
      · cases h <;>
          (simp [make_request, AttemptOutcome.receivedResponse]; try omega)
      · cases h <;>
          (simp [make_request, AttemptOutcome.receivedResponse]; try omega)

/-- C3: against a transport that fails every attempt with an HTTP 500 error,
`chat_completion` performs exactly `retry_attempts` attempts (the config
field defaults to 3 and is validated to be at least 1) — never more, never
fewer — and then fails with the classified error observed on the last
attempt (messages are indexed by attempt to pin down which error is
raised). -/
theorem chat_completion_always_500 (msg : Nat → String) (retry_attempts : Nat)
    (stats : ClientStats) (h : 1 ≤ retry_attempts) :
    (chat_completion (fun i => .httpError 500 (msg i) none none none)
        retry_attempts stats).2 =
      (.error { status_code := 500, message := msg (retry_attempts - 1) },
       retry_attempts) := by
  obtain ⟨n, rfl⟩ : ∃ n, retry_attempts = n + 1 := ⟨retry_attempts - 1, by omega⟩
  unfold chat_completion
  rcases hl : chat_completion_loop (fun i => .httpError 500 (msg i) none none none)
      (n + 1) stats 0 with ⟨s2, r2, a2⟩
  have := chat_loop_all_500 msg n 0 stats
  rw [hl] at this
  simp only [Nat.zero_add] at this
  have hr2 : r2 = .error { status_code := 500, message := msg n } := by
    have := congrArg Prod.fst this
    simpa using this
  have ha2 : a2 = n + 1 := by
    have := congrArg Prod.snd this
    simpa using this
  subst hr2 ha2
  simp

/-- Witness for C3 at the default `retry_attempts = 3`. -/
theorem chat_completion_always_500_witness :
    1 ≤ 3 ∧
    (chat_completion (fun i => .httpError 500 ((fun _ => "Internal Server Error") i)
        none none none) 3 ClientStats.init).2 =
      (.error { status_code := 500,
                message := (fun _ => "Internal Server Error") (3 - 1) }, 3) :=
  ⟨by decide,
   chat_completion_always_500 (fun _ => "Internal Server Error") 3 ClientStats.init
     (by decide)⟩

/-- C4: for every list of N subtitle units, `translate_batch` returns exactly
N results, slot i corresponding to unit i in input order (`handle_result`
depends only on unit i, so a failure in one unit cannot affect another);
a failing unit's slot receives the synthesized fallback (original text
echoed, confidence and quality fields zeroed) and a succeeding unit's slot
its real result.  Totality of the definition models that the batch call
never raises.  The batch size is positive (the config validates
`batch_size >= 1`; `range` with step 0 would raise in Python). -/
theorem translate_batch_order_and_isolation (subs : List SubtitleLine)
    (op : SubtitleLine → Except PyExc TranslationResult) (bs : Nat) (h : 0 < bs) :
    (translate_batch subs op bs).length = subs.length ∧
    (∀ (i : Nat) (hi : i < subs.length) (hi2 : i < (translate_batch subs op bs).length),
      (translate_batch subs op bs).get ⟨i, hi2⟩ = handle_result op (subs.get ⟨i, hi⟩)) ∧
    (∀ (s : SubtitleLine) (r : TranslationResult), op s = .ok r → handle_result op s = r) ∧
    (∀ (s : SubtitleLine) (e : PyExc), op s = .error e →
      handle_result op s =
        { original_text := s.text, translated_text := s.text, confidence := 0,
          quality_score := 0, style_score := 0, cultural_score := 0,
          character_score := 0, suggestions := [], alternative_translations := [] }) := by
  have hm := translate_batch_eq_map subs op bs h
  refine ⟨by rw [hm]; simp, ?_, ?_, ?_⟩
  · intro i hi hi2
    simp [hm, List.get_eq_getElem, List.getElem_map]
  · intro s r hr
    simp [handle_result, hr]
  · intro s e hee
    simp [handle_result, hee, fallback_result]

/-- Witness for C4 on the spec's example: 5 units with unit index 2 always
failing, batch size 2; 5 results come back, and slot 2 is the echo
fallback. -/
theorem translate_batch_order_and_isolation_witness :
    0 < 2 ∧
    (translate_batch exampleSubs exampleOp 2).length = exampleSubs.length ∧
    (translate_batch exampleSubs exampleOp 2).get ⟨2, by decide⟩ =
      handle_result exampleOp (exampleSubs.get ⟨2, by decide⟩) :=
  ⟨by decide,
   (translate_batch_order_and_isolation exampleSubs exampleOp 2 (by decide)).1,
   (translate_batch_order_and_isolation exampleSubs exampleOp 2 (by decide)).2.1
     2 (by decide) (by decide)⟩

/-- C5: read-your-write.  For every key and value, a `set` with a positive
TTL immediately followed by a `get` of the same key (same clock reading)
returns the value, for every combination of Redis availability and tier-2/3
failure outcomes on both calls: the `set` writes the memory tier first and
the `get` consults the memory tier first. -/
theorem cache_read_your_write {alpha : Type} (st : CacheState alpha) (k : String)
    (v : alpha) (ttl cfg now : Rat) (rF dF rF2 dF2 : Bool) (h : 0 < ttl) :
    (CacheManager.get cfg now rF2 dF2
        (CacheManager.set cfg now rF dF st k v (some ttl)) k).2 = some v := by
  obtain ⟨hm, he⟩ := set_memory_proj cfg now rF dF st k v (some ttl)
  have hmk : (CacheManager.set cfg now rF dF st k v (some ttl)).memory k = some v := by
    rw [hm]; simp [mapUpdate]
  have hvk : is_cache_valid now
      (CacheManager.set cfg now rF dF st k v (some ttl)).memory_expiry k = true := by
    rw [he]
    unfold is_cache_valid mapUpdate
    rw [if_pos rfl]
    simp only [Option.getD_some, decide_eq_true_eq]
    linarith
  rw [get_memory_hit cfg now rF2 dF2 _ k v hmk hvk]

/-- Witness for C5 at a concrete key, value and TTL. -/
theorem cache_read_your_write_witness :
    (0:Rat) < 60 ∧
    (CacheManager.get 3600 0 false false
        (CacheManager.set 3600 0 false false (CacheState.empty Nat false) "k" 42
          (some 60)) "k").2 = some 42 :=
  ⟨by decide,
   cache_read_your_write (CacheState.empty Nat false) "k" 42 60 3600 0
     false false false false (by decide)⟩

/-- C6: backfill on a tier-3 hit.  If the disk tier holds a live entry for a
key absent from the memory tier (and the Redis tier misses, fails, or is
unavailable), `get` returns the disk value recording a disk hit, backfills
the memory tier with that value, and an immediately following `get` of the
same key is served from the memory tier: it returns the same value recording
a memory hit and no further disk hit.  Needs the configured default TTL to
be positive (the config validates `cache_ttl >= 60`). -/
theorem cache_tier3_backfill {alpha : Type} (st : CacheState alpha) (k : String)
    (v : alpha) (de cfg now : Rat) (rF rF2 dF2 : Bool)
    (hm : st.memory k = none)
    (hred : st.redis_available = true → st.redis k = none)
    (hd : st.disk k = some (v, de))
    (hlive : now < de)
    (hcfg : 0 < cfg) :
    (CacheManager.get cfg now rF false st k).2 = some v ∧
    (CacheManager.get cfg now rF false st k).1.stats.disk_hits = st.stats.disk_hits + 1 ∧
    (CacheManager.get cfg now rF false st k).1.stats.memory_hits = st.stats.memory_hits ∧
    (CacheManager.get cfg now rF false st k).1.memory k = some v ∧
    (CacheManager.get cfg now rF2 dF2 (CacheManager.get cfg now rF false st k).1 k).2
      = some v ∧
    (CacheManager.get cfg now rF2 dF2
        (CacheManager.get cfg now rF false st k).1 k).1.stats.memory_hits
      = (CacheManager.get cfg now rF false st k).1.stats.memory_hits + 1 ∧
    (CacheManager.get cfg now rF2 dF2
        (CacheManager.get cfg now rF false st k).1 k).1.stats.disk_hits
      = (CacheManager.get cfg now rF false st k).1.stats.disk_hits := by
  rw [get_tier3_hit cfg now de rF st k v hm hred hd hlive]
  rw [get_memory_hit cfg now rF2 dF2 _ k v (by simp [mapUpdate])
    (by
      simp [is_cache_valid, mapUpdate]
      linarith)]
  simp [mapUpdate]

/-- Witness for C6: disk holds `"k" ↦ 7` expiring at 100, memory cold,
Redis unavailable, default TTL 50, clock at 0. -/
theorem cache_tier3_backfill_witness :
    ((0:Rat) < 100 ∧ (0:Rat) < 50) ∧
    (CacheManager.get 50 0 false false exampleDiskState "k").2 = some 7 :=
  ⟨⟨by decide, by decide⟩,
   (cache_tier3_backfill exampleDiskState "k" 7 100 50 0 false false false rfl
     (fun hra => by simp [exampleDiskState, CacheState.empty] at hra)
     rfl (by decide) (by decide)).1⟩

/-- C7, counterexample: the claim requires the faster tiers to end up with an
expiry equal to or later than the slower tier's.  With the disk tier holding
`"k"` until time 100, the clock at 0 and the default TTL 50, a successful
read backfills the memory tier with expiry 50 — strictly earlier than the
disk entry's 100 — and leaves the Redis tier (also a faster tier than disk)
without the key at all. -/
theorem cache_backfill_expiry_cex :
    (CacheManager.get 50 0 false false exampleDiskState "k").2 = some 7 ∧
    exampleDiskState.disk "k" = some (7, 100) ∧
    (CacheManager.get 50 0 false false exampleDiskState "k").1.memory_expiry "k"
      = some ((0:Rat) + 50) ∧
    ¬ ((100:Rat) ≤ (0:Rat) + 50) ∧
    (CacheManager.get 50 0 false false exampleDiskState "k").1.redis "k" = none := by
  refine ⟨by decide, by decide, rfl, by norm_num, by decide⟩

/-- The disk phase, when it returns a value, has backfilled the memory tier
with that value under the default TTL and has not touched the Redis tier. -/
theorem get_disk_phase_backfill {alpha : Type} (cfg now : Rat) (dF : Bool)
    (s : CacheState alpha) (k : String) (v : alpha)
    (h : (CacheManager.get_disk_phase cfg now dF s k).2 = some v) :
    (CacheManager.get_disk_phase cfg now dF s k).1.memory k = some v ∧
    (CacheManager.get_disk_phase cfg now dF s k).1.memory_expiry k = some (now + cfg) ∧
    (CacheManager.get_disk_phase cfg now dF s k).1.redis = s.redis := by
  unfold CacheManager.get_disk_phase at h ⊢
  cases dF
  · rcases hdk : s.disk k with _ | ⟨w, e⟩
    · simp [hdk] at h
    · by_cases hlt : now < e
      · simp only [hdk, hlt] at h ⊢
        simp [set_memory_cache, mapUpdate] at h ⊢
        exact h
      · simp [hdk, hlt] at h
  · simp at h

/-- The post-memory-miss phase of `get`, when it returns a value (from the
Redis tier or the disk tier), has backfilled the memory tier with that value
under the default TTL and has not modified the Redis tier's contents. -/
theorem get_after_memory_backfill {alpha : Type} (cfg now : Rat) (rF dF : Bool)
    (st : CacheState alpha) (k : String) (v : alpha)
    (h : (CacheManager.get_after_memory cfg now rF dF st k).2 = some v) :
    (CacheManager.get_after_memory cfg now rF dF st k).1.memory k = some v ∧
    (CacheManager.get_after_memory cfg now rF dF st k).1.memory_expiry k
      = some (now + cfg) ∧
    (CacheManager.get_after_memory cfg now rF dF st k).1.redis = st.redis := by
  unfold CacheManager.get_after_memory at h ⊢
  cases hra : st.redis_available
  · simp only [hra, Bool.false_eq_true, if_false] at h ⊢
    exact get_disk_phase_backfill cfg now dF _ k v h
  · simp only [hra, if_true] at h ⊢
    cases rF
    · simp only [Bool.false_eq_true, if_false] at h ⊢
      rcases hrk : st.redis k with _ | w
      · simp only [hrk] at h ⊢
        exact get_disk_phase_backfill cfg now dF _ k v h
      · simp only [hrk] at h ⊢
        simp [set_memory_cache, mapUpdate] at h ⊢
        exact h
    · simp only [if_true] at h ⊢
      exact get_disk_phase_backfill cfg now dF _ k v h

/-- C7, amended: after a successful read served from a slower tier (the
memory tier missed, yet `get` returned a value), the key is present in
tier 1 with the returned value and expiry `now + default TTL` — which can be
strictly earlier than the slower tier's expiry — and tier 2 is left
unchanged: in particular it is not backfilled on a tier-3 hit.  Backfill
flows toward tier 1 only, and with the configured TTL rather than the
slower tier's. -/
theorem cache_read_backfills_tier1_only {alpha : Type} (st : CacheState alpha)
    (k : String) (cfg now : Rat) (rF dF : Bool) (v : alpha)
    (hm : st.memory k = none)
    (hret : (CacheManager.get cfg now rF dF st k).2 = some v) :
    (CacheManager.get cfg now rF dF st k).1.memory k = some v ∧
    (CacheManager.get cfg now rF dF st k).1.memory_expiry k = some (now + cfg) ∧
    (CacheManager.get cfg now rF dF st k).1.redis = st.redis := by
  unfold CacheManager.get at hret ⊢
  rw [hm] at hret ⊢
  exact get_after_memory_backfill cfg now rF dF st k v hret

/-- Witness for the amended C7 at the concrete tier-3 state of the
counterexample. -/
theorem cache_read_backfills_tier1_only_witness :
    (exampleDiskState.memory "k" = none ∧
      (CacheManager.get 50 0 false false exampleDiskState "k").2 = some 7) ∧
    ((CacheManager.get 50 0 false false exampleDiskState "k").1.memory "k" = some 7 ∧
     (CacheManager.get 50 0 false false exampleDiskState "k").1.memory_expiry "k"
       = some ((0:Rat) + 50) ∧
     (CacheManager.get 50 0 false false exampleDiskState "k").1.redis
       = exampleDiskState.redis) :=
  ⟨⟨by decide, by decide⟩,
   cache_read_backfills_tier1_only exampleDiskState "k" 50 0 false false 7
     (by decide) (by decide)⟩

/-- C8: `set` always writes tier 1.  For every key, value, TTL argument and
clock reading, and for EVERY combination of Redis availability and tier-2 /
tier-3 write failures (`rF`, `dF` — exceptions which lines 164-165 and
171-172 log and swallow), the state after `set` holds the value in the
memory tier with expiry `now` plus the given TTL (or the config default when
none was given).  Totality of the definition models that the `set` call
itself never raises. -/
theorem cache_set_always_writes_tier1 {alpha : Type} (st : CacheState alpha)
    (k : String) (v : alpha) (expire : Option Rat) (cfg now : Rat) (rF dF : Bool) :
    (CacheManager.set cfg now rF dF st k v expire).memory k = some v ∧
    (CacheManager.set cfg now rF dF st k v expire).memory_expiry k
      = some (now + expire.getD cfg) := by
  obtain ⟨hm, he⟩ := set_memory_proj cfg now rF dF st k v expire
  rw [hm, he]
  simp [mapUpdate]

/-- C9: under a persistent remote-service outage — every transport attempt
fails — every unit of a batch translation over cold cache entries comes back
as the fallback/echo result: translated text equal to the original input
text, confidence and quality zero; the batch call returns normally rather
than failing.  (The proof does not even need the outage hypothesis: on a
successful completion, line 134's `response.choices[0].message` attribute
access on a plain dict raises inside the `try`, so the unit result is the
fallback in that case too.) -/
theorem batch_outage_all_fallback (subs : List SubtitleLine)
    (transport : Nat → AttemptOutcome) (retry_attempts : Nat)
    (stats : ClientStats) (bs : Nat) (hbs : 0 < bs)
    (_houtage : ∀ i, (transport i).isSuccess = false) :
    translate_batch subs
        (fun s => .ok (translate_subtitle_run none transport retry_attempts stats s))
        bs
      = subs.map fallback_result ∧
    ∀ s : SubtitleLine,
      (fallback_result s).translated_text = s.text ∧
      (fallback_result s).original_text = s.text ∧
      (fallback_result s).confidence = 0 ∧
      (fallback_result s).quality_score = 0 := by
  constructor
  · rw [translate_batch_eq_map subs _ bs hbs]
    have hop : (handle_result
        (fun s => .ok (translate_subtitle_run none transport retry_attempts stats s)))
        = fallback_result := by
      funext s
      simp [handle_result, translate_subtitle_run_eq_fallback]
    rw [hop]
  · intro s
    exact ⟨rfl, rfl, rfl, rfl⟩

/-- Witness for C9: the five-unit batch against a transport that is down on
every attempt, with the default `retry_attempts = 3` and batch size 2. -/
theorem batch_outage_all_fallback_witness :
    (0 < 2 ∧ ∀ i, (outageTransport i).isSuccess = false) ∧
    translate_batch exampleSubs
        (fun s => .ok (translate_subtitle_run none outageTransport 3 ClientStats.init s))
        2
      = exampleSubs.map fallback_result :=
  ⟨⟨by decide, fun _ => rfl⟩,
   (batch_outage_all_fallback exampleSubs outageTransport 3 ClientStats.init 2
     (by decide) (fun _ => rfl)).1⟩

/-- C10: `translate_subtitle` is total at the unit boundary.  For every
subtitle and every outcome of the `try` body — a reply string reaching the
parser under any classification, or any exception raised by the transport,
the response handling or the parser — the returned `TranslationResult`
carries the input subtitle's text as `original_text`.  The cache-hit path
returns the stored entry, which carries the text of the subtitle that wrote
it (entries are keyed by a hash of the subtitle text and context, line
416-437), stated here as the hypothesis on `cached`.  Totality of the
definition (return type `TranslationResult`, not `Except`) models that no
exception propagates to the caller: the `except Exception` at line 152
catches everything raised inside the `try`. -/
theorem translate_subtitle_preserves_original (cached : Option TranslationResult)
    (sub : SubtitleLine) (body : TryBody)
    (hcache : ∀ r, cached = some r → r.original_text = sub.text) :
    (translate_subtitle cached sub body).original_text = sub.text := by
  rcases cached with _ | r
  · rcases body with e | rk
    · rfl
    · rcases rk with d | _ | _ <;> rfl
  · exact hcache r rfl

/-- Witness for C10 on a cache miss whose reply contains no JSON block. -/
theorem translate_subtitle_preserves_original_witness :
    (∀ r : TranslationResult, (none : Option TranslationResult) = some r →
      r.original_text = (exampleSubtitle 0 "hello").text) ∧
    (translate_subtitle none (exampleSubtitle 0 "hello")
        (.parsed .noJson)).original_text = (exampleSubtitle 0 "hello").text :=
  ⟨(fun _ h => nomatch h),
   translate_subtitle_preserves_original none (exampleSubtitle 0 "hello")
     (.parsed .noJson) (fun _ h => nomatch h)⟩
